import Mathlib

/-!
Verification of the ZMC alarm exporter's reconciliation core.

Shallow embedding of the Python sources:
  app/models/alarm.py        (ZMCAlarm value type and derived accessors)
  app/models/prometheus.py   (PrometheusAlert, SilenceMatcher, PrometheusSilence)
  app/config.py              (filter / mapping configuration)
  app/services/alarm_transformer.py (AlarmTransformer: filter, labels, mapper, silence)
  app/services/alertmanager_client.py (retry policy, push_alerts)
  app/services/oracle_client.py      (sync-status writes)
  app/services/sync_service.py       (per-alarm phase handlers, state machine)

Machine timestamps are modelled as `Int` epoch seconds ("1 second" = 1).
Python `or`-style truthiness on optional strings / ints (where `None`, `""`
and `0` are falsy) is made explicit through `pyStr` / `pyInt`.
-/

namespace ZMC

/-- Python truthiness filter for optional strings: `None` and `""` are falsy. -/
def pyStr : Option String → Option String
  | none => none
  | some s => if s = "" then none else some s

/-- Python truthiness filter for optional ints: `None` and `0` are falsy. -/
def pyInt : Option Int → Option Int
  | none => none
  | some n => if n = 0 then none else some n

/-- Python `str.split(sep)` on a single-character separator, character level. -/
def pySplitChar (sep : Char) : List Char → List (List Char)
  | [] => [[]]
  | c :: rest =>
    match pySplitChar sep rest with
    | [] => [[]]
    | cur :: parts => if c = sep then [] :: cur :: parts else (c :: cur) :: parts

/-- Python `str.split(sep)` for a single-character separator. -/
def pySplit (s : String) (sep : Char) : List String :=
  (pySplitChar sep s.data).map String.mk

/-- Python `str.strip()`: drop leading and trailing whitespace. -/
def pyStrip (s : String) : String :=
  String.mk (((s.data.dropWhile Char.isWhitespace).reverse.dropWhile
    Char.isWhitespace).reverse)

/-- Python `str.lower()` (ASCII range, which covers the severity names the
code compares). -/
def pyLowerChar (c : Char) : Char :=
  if 'A' ≤ c ∧ c ≤ 'Z' then Char.ofNat (c.toNat + 32) else c

/-- Python `str.lower()` applied to a whole string. -/
def pyLower (s : String) : String := String.mk (s.data.map pyLowerChar)

/-- ZMC alarm row (app/models/alarm.py `ZMCAlarm`), restricted to the fields
read by the operations verified here.  Timestamps are epoch seconds. -/
structure ZMCAlarm where
  event_inst_id : Int
  event_time : Option Int := none
  create_date : Option Int := none
  alarm_code : Int
  alarm_level : Option String := none
  reset_flag : String := "1"
  task_type : Option String := none
  res_inst_type : Option String := none
  detail_info : Option String := none
  alarm_inst_id : Option Int := none
  alarm_state : Option String := none
  reset_date : Option Int := none
  clear_date : Option Int := none
  confirm_date : Option Int := none
  clear_reason : Option String := none
  alarm_name : Option String := none
  default_warn_level : Option String := none
  device_id : Option Int := none
  host_name : Option String := none
  host_ip : Option String := none
  app_name : Option String := none
  business_domain : Option String := none
  environment : Option String := none
  deriving Repr, DecidableEq

/-- `ZMCAlarm.effective_severity`: `self.alarm_level or self.default_warn_level or "3"`. -/
def ZMCAlarm.effective_severity (a : ZMCAlarm) : String :=
  match pyStr a.alarm_level with
  | some s => s
  | none =>
    match pyStr a.default_warn_level with
    | some s => s
    | none => "3"

/-- `ZMCAlarm.effective_host`: `"<host_name>@<host_ip>"` when both are truthy,
else whichever is present, else `device_<device_id or 'unknown'>`. -/
def ZMCAlarm.effective_host (a : ZMCAlarm) : String :=
  match pyStr a.host_name, pyStr a.host_ip with
  | some hn, some hi => hn ++ "@" ++ hi
  | none, some hi => hi
  | some hn, none => hn
  | none, none =>
    "device_" ++ (match pyInt a.device_id with
      | some d => toString d
      | none => "unknown")

/-- `ZMCAlarm.effective_alert_name`: `self.alarm_name or f"ZMC_ALARM_{self.alarm_code}"`. -/
def ZMCAlarm.effective_alert_name (a : ZMCAlarm) : String :=
  match pyStr a.alarm_name with
  | some s => s
  | none => "ZMC_ALARM_" ++ toString a.alarm_code

/-- `ZMCAlarm.get_resolved_time`: reset time when state is A, else
`clear_date or confirm_date` when state is M or C, else nothing. -/
def ZMCAlarm.get_resolved_time (a : ZMCAlarm) : Option Int :=
  if a.alarm_state = some "A" then a.reset_date
  else if a.alarm_state = some "M" ∨ a.alarm_state = some "C" then
    match a.clear_date with
    | some d => some d
    | none => a.confirm_date
  else none

/-- One character of `AlarmTransformer._sanitize_label_value`: the three
single-character `str.replace` calls (`\n`→space, `\r`→space, `"`→`'`)
compose into this character map. -/
def sanitizeChar (c : Char) : Char :=
  if c = '\n' ∨ c = '\r' then ' '
  else if c = '"' then '\'' else c

/-- The length bound of `AlarmTransformer._sanitize_label_value`: values
longer than 256 characters are cut to 253 plus `"..."`. -/
def sanitizeTruncate (l : List Char) : List Char :=
  if 256 < l.length then l.take 253 ++ "...".data else l

/-- `AlarmTransformer._sanitize_label_value`: falsy input becomes
`"unknown"`; newlines/CR become spaces, double quotes become single quotes;
then the length bound is applied. -/
def sanitizeLabelValue (value : String) : String :=
  if value = "" then "unknown"
  else String.mk (sanitizeTruncate (value.data.map sanitizeChar))

/-- `SyncServiceConfig` (app/config.py): the two filter settings read by
`should_sync_alarm`. -/
structure SyncServiceConfig where
  alarm_levels : String := "1,2,3,4"
  severity_filter : String := ""
  deriving Repr, DecidableEq

/-- `SyncServiceConfig.get_allowed_zmc_levels`: all five levels when the CSV
is blank, else the trimmed non-empty comma-separated entries. -/
def SyncServiceConfig.get_allowed_zmc_levels (c : SyncServiceConfig) : List String :=
  if pyStrip c.alarm_levels = "" then ["0", "1", "2", "3", "4"]
  else ((pySplit c.alarm_levels ',').map pyStrip).filter (fun s => s ≠ "")

/-- `SyncServiceConfig.get_allowed_severities`: empty when the CSV is blank
(meaning "no severity filter"), else the trimmed, lower-cased entries. -/
def SyncServiceConfig.get_allowed_severities (c : SyncServiceConfig) : List String :=
  if pyStrip c.severity_filter = "" then []
  else
    (((pySplit c.severity_filter ',').map pyStrip).filter
      (fun s => s ≠ "")).map pyLower

/-- The configuration defaults of `SyncServiceConfig` in app/config.py. -/
def defaultSyncConfig : SyncServiceConfig := {}

/-- `SeverityMapping` (app/config.py): ZMC level → Prometheus severity. -/
structure SeverityMapping where
  level_0 : String := "warning"
  level_1 : String := "critical"
  level_2 : String := "error"
  level_3 : String := "warning"
  level_4 : String := "info"
  deriving Repr, DecidableEq

/-- `SeverityMapping.get_severity`: dictionary lookup with `level_3` as the
default for unknown levels. -/
def SeverityMapping.get_severity (m : SeverityMapping) (zmc_level : String) : String :=
  if zmc_level = "0" then m.level_0
  else if zmc_level = "1" then m.level_1
  else if zmc_level = "2" then m.level_2
  else if zmc_level = "3" then m.level_3
  else if zmc_level = "4" then m.level_4
  else m.level_3

/-- The configuration defaults of `SeverityMapping` in app/config.py. -/
def defaultSeverityMapping : SeverityMapping := {}

/-- `StaticLabels` (app/config.py). -/
structure StaticLabels where
  source : String := "BSS_OSS_L1"
  cluster : Option String := none
  datacenter : Option String := none
  deriving Repr, DecidableEq

/-- `StaticLabels.to_dict`: label dictionary without the `None` entries. -/
def StaticLabels.to_dict (s : StaticLabels) : List (String × String) :=
  [("source", s.source)]
    ++ (match pyStr s.cluster with
        | some c => [("cluster", c)]
        | none => [])
    ++ (match pyStr s.datacenter with
        | some d => [("datacenter", d)]
        | none => [])

/-- The configuration defaults of `StaticLabels` in app/config.py. -/
def defaultStaticLabels : StaticLabels := {}

/-- `AlarmTransformer.should_sync_alarm`: level filter followed by the
optional severity filter, with the code's early-return structure. -/
def should_sync_alarm (sync : SyncServiceConfig) (sev : SeverityMapping)
    (a : ZMCAlarm) : Bool :=
  let allowed_levels := sync.get_allowed_zmc_levels
  let alarm_level := a.effective_severity
  if ¬ (allowed_levels.contains alarm_level) then false
  else
    let allowed_severities := sync.get_allowed_severities
    if ¬ allowed_severities.isEmpty then
      let mapped_severity := sev.get_severity alarm_level
      if ¬ (allowed_severities.contains (pyLower mapped_severity)) then false
      else true
    else true

/-- `AlarmTransformer._build_labels`.  The Python dict is represented as an
association list in insertion order; all keys inserted are distinct string
literals (the static-label keys `source`/`cluster`/`datacenter` never clash
with the core keys), so `List.lookup` agrees with Python dict lookup. -/
def build_labels (sev : SeverityMapping) (static : StaticLabels)
    (a : ZMCAlarm) : List (String × String) :=
  [("alertname", sanitizeLabelValue a.effective_alert_name),
   ("instance", sanitizeLabelValue a.effective_host),
   ("severity", sev.get_severity a.effective_severity),
   ("alarm_id",
     match pyInt a.alarm_inst_id with
     | some n => toString n
     | none => toString a.event_inst_id),
   ("event_id", toString a.event_inst_id),
   ("alarm_code", toString a.alarm_code),
   ("resource_type",
     sanitizeLabelValue ((pyStr a.res_inst_type).getD "UNKNOWN"))]
  ++ (match pyStr a.host_name with
      | some hn => if a.host_ip = some hn then [] else [("host", sanitizeLabelValue hn)]
      | none => [])
  ++ (match pyStr a.app_name with
      | some v => [("application", sanitizeLabelValue v)]
      | none => [])
  ++ (match pyStr a.business_domain with
      | some v => [("domain", sanitizeLabelValue v)]
      | none => [])
  ++ (match pyStr a.environment with
      | some v => [("env", sanitizeLabelValue (pyLower v))]
      | none => [])
  ++ (match pyStr a.task_type with
      | some v => [("task_type", sanitizeLabelValue v)]
      | none => [])
  ++ static.to_dict

/-- `PrometheusAlert` (app/models/prometheus.py), restricted to the fields
the verified claims read.  `create_firing` / `create_resolved` pop the three
core labels out of the dict and re-insert them at the same keys, which leaves
the label dictionary unchanged, so `labels` here is the `_build_labels`
result directly. -/
structure PrometheusAlert where
  labels : List (String × String)
  startsAt : Option Int
  endsAt : Option Int
  deriving Repr, DecidableEq

/-- `AlarmTransformer.transform_to_prometheus`: start time from
`event_time or create_date or now`; for resolved alerts the end time is
`resolved_at or get_resolved_time() or now`, and a start time at or after the
end time is pulled back to one second before it. -/
def transform_to_prometheus (sev : SeverityMapping) (static : StaticLabels)
    (a : ZMCAlarm) (resolved : Bool) (resolved_at : Option Int)
    (now : Int) : PrometheusAlert :=
  let labels := build_labels sev static a
  let starts_at := a.event_time.getD (a.create_date.getD now)
  if resolved then
    let ends_at := resolved_at.getD ((a.get_resolved_time).getD now)
    let starts_at := if starts_at ≥ ends_at then ends_at - 1 else starts_at
    { labels := labels, startsAt := some starts_at, endsAt := some ends_at }
  else
    { labels := labels, startsAt := some starts_at, endsAt := none }

/-- `SilenceMatcher` (app/models/prometheus.py). -/
structure SilenceMatcher where
  name : String
  value : String
  isRegex : Bool := false
  isEqual : Bool := true
  deriving Repr, DecidableEq

/-- `PrometheusSilence` (app/models/prometheus.py); times as epoch seconds. -/
structure PrometheusSilence where
  matchers : List SilenceMatcher
  startsAt : Int
  endsAt : Int
  createdBy : String
  comment : String
  deriving Repr, DecidableEq

/-- `PrometheusSilence.create_for_alarm`: builds the matcher list
`[event_id = str(event_id)]` (exact, non-regex match on the event id). -/
def PrometheusSilence.create_for_alarm (event_id : Int) (alarm_code : Int)
    (inst : String) (starts_at ends_at : Int)
    (created_by : String) (comment : String) : PrometheusSilence :=
  let _ := alarm_code
  let _ := inst
  { matchers := [{ name := "event_id", value := toString event_id,
                   isRegex := false, isEqual := true }],
    startsAt := starts_at, endsAt := ends_at,
    createdBy := created_by, comment := comment }

/-- `SilenceConfig` (app/config.py), restricted to the fields
`AlarmTransformer.create_silence` reads. -/
structure SilenceConfig where
  default_duration_hours : Int := 24
  deriving Repr, DecidableEq

/-- The configuration defaults of `SilenceConfig` in app/config.py. -/
def defaultSilenceConfig : SilenceConfig := {}

/-- `AlarmTransformer.create_silence`: duration is
`duration_hours or default_duration_hours` (Python truthiness, so a passed
0 falls back to the default); the window is `[now, now + duration·3600]`;
a missing comment is produced from the configured template (the default
template instance, with `now` pre-rendered as `nowStr`). -/
def create_silence (cfg : SilenceConfig) (a : ZMCAlarm)
    (duration_hours : Option Int) (comment : Option String)
    (now : Int) (nowStr : String) : PrometheusSilence :=
  let duration := (pyInt duration_hours).getD cfg.default_duration_hours
  let starts_at := now
  let ends_at := starts_at + duration * 3600
  let comment' := comment.getD
    ("Silenced by ZMC at " ++ nowStr ++ ". Operator: zmc-alarm-exporter")
  PrometheusSilence.create_for_alarm a.event_inst_id a.alarm_code
    a.effective_host starts_at ends_at "zmc-alarm-exporter" comment'

/-- Sync-state row `NM_ALARM_SYNC_STATUS` (app/models/alarm.py
`AlarmSyncStatus`, written by app/services/oracle_client.py). -/
structure SyncRecord where
  alarm_inst_id : Option Int
  event_inst_id : Option Int
  sync_status : String
  zmc_alarm_state : Option String
  last_push_time : Option Int
  push_count : Nat
  am_fingerprint : Option String
  silence_id : Option String
  error_count : Nat
  last_error : Option String
  deriving Repr, DecidableEq

/-- `OracleClient.insert_sync_status`: a fresh row with `PUSH_COUNT = 1`,
`LAST_PUSH_TIME = now`, and the unset columns at their defaults. -/
def insert_sync_status (alarm_inst_id event_inst_id : Option Int)
    (sync_status : String) (zmc_alarm_state : Option String)
    (now : Int) : SyncRecord :=
  { alarm_inst_id := alarm_inst_id, event_inst_id := event_inst_id,
    sync_status := sync_status, zmc_alarm_state := zmc_alarm_state,
    last_push_time := some now, push_count := 1,
    am_fingerprint := none, silence_id := none,
    error_count := 0, last_error := none }

/-- `OracleClient.update_sync_status_success`: sets the new states,
increments `PUSH_COUNT`, overwrites `AM_FINGERPRINT` and `SILENCE_ID` with
the passed values (the call-site default is null), and clears the error
columns. -/
def update_sync_status_success (r : SyncRecord) (sync_status : String)
    (zmc_alarm_state : Option String)
    (am_fingerprint silence_id : Option String) (now : Int) : SyncRecord :=
  { r with
    sync_status := sync_status, zmc_alarm_state := zmc_alarm_state,
    last_push_time := some now, push_count := r.push_count + 1,
    am_fingerprint := am_fingerprint, silence_id := silence_id,
    error_count := 0, last_error := none }

/-- `OracleClient.update_sync_status_error`: increments `ERROR_COUNT` and
records the message truncated to 2000 characters; all other columns keep
their values. -/
def update_sync_status_error (r : SyncRecord) (message : String) : SyncRecord :=
  { r with
    error_count := r.error_count + 1,
    last_error := some (message.take 2000) }

/-- `AlarmExtractor.update_sync_status` call with the optional
`am_fingerprint` / `silence_id` arguments omitted, as done by the refire
transition (sync_service.py `sync_refired_alarms`). -/
def refire_update (r : SyncRecord) (new_state : String) (now : Int) : SyncRecord :=
  update_sync_status_success r "FIRING" (some new_state) none none now

/-- The heartbeat refresh update (sync_service.py `sync_heartbeat`): again
omits `am_fingerprint` / `silence_id`. -/
def heartbeat_update (r : SyncRecord) (now : Int) : SyncRecord :=
  update_sync_status_success r "FIRING" (some "U") none none now

/-- The `push_count = 0` direct resolution (sync_service.py
`sync_status_changes`): again omits `am_fingerprint` / `silence_id`. -/
def push_count_zero_resolve (r : SyncRecord) (new_state : String) (now : Int) : SyncRecord :=
  update_sync_status_success r "RESOLVED" (some new_state) none none now

/-- One write operation against a sync row. -/
inductive SyncOp where
  | success (sync_status : String) (zmc_alarm_state : Option String)
      (am_fingerprint silence_id : Option String) (now : Int)
  | error (message : String)

/-- Apply one write operation. -/
def SyncOp.apply (r : SyncRecord) : SyncOp → SyncRecord
  | .success st z fp sid now => update_sync_status_success r st z fp sid now
  | .error msg => update_sync_status_error r msg

/-- Apply a sequence of write operations left to right. -/
def applySyncOps (r : SyncRecord) (ops : List SyncOp) : SyncRecord :=
  ops.foldl SyncOp.apply r

/-- Outcome of one HTTP attempt inside
`AlertmanagerClient._request_with_retry`: either the server answered (with
any status code) or the attempt raised (timeout / connection error / other
exception). -/
inductive AttemptOutcome where
  | response (status : Nat)
  | failure (message : String)
  deriving Repr, DecidableEq

/-- The attempt loop of `AlertmanagerClient._request_with_retry`:
`script n` is the outcome of attempt `n` (0-based); any response is returned
immediately with the number of attempts made, exceptions are retried, and
exhausting the attempts re-raises the last error. -/
def requestAttempts (script : Nat → AttemptOutcome) :
    Nat → Nat → Option String → Except String (Nat × Nat)
  | 0, _, last_error => .error (last_error.getD "Request failed after all retries")
  | remaining + 1, attempt, _ =>
    match script attempt with
    | .response st => .ok (st, attempt + 1)
    | .failure msg => requestAttempts script remaining (attempt + 1) (some msg)

/-- `AlertmanagerClient._request_with_retry` with `retry_count` attempts:
returns `(status_code, attempts_made)` or the final error. -/
def request_with_retry (retry_count : Nat) (script : Nat → AttemptOutcome) :
    Except String (Nat × Nat) :=
  requestAttempts script retry_count 0 none

/-- Result dictionary of `AlertmanagerClient.push_alerts`, extended with the
number of HTTP attempts the request loop made. -/
structure PushResult where
  success : Bool
  attempts : Nat
  status_code : Option Nat
  deriving Repr, DecidableEq

/-- `AlertmanagerClient.push_alerts`: success iff the request loop produced
a 200 response; an exception escaping the loop (after all `retry_count`
attempts) yields a failure result. -/
def push_alerts (retry_count : Nat) (script : Nat → AttemptOutcome) : PushResult :=
  match request_with_retry retry_count script with
  | .ok (st, n) => { success := st == 200, attempts := n, status_code := some st }
  | .error _ => { success := false, attempts := retry_count, status_code := none }

/-- Phase 1 (`SyncService.sync_new_alarms`) restricted to a single accepted
alarm: push it as firing and, only if the push result is a success, insert
the FIRING sync row; a failed push only writes an ERROR audit entry. -/
def sync_new_one (retry_count : Nat) (script : Nat → AttemptOutcome)
    (a : ZMCAlarm) (now : Int) : Option SyncRecord × List String :=
  let result := push_alerts retry_count script
  if result.success then
    (some (insert_sync_status a.alarm_inst_id (some a.event_inst_id) "FIRING"
            (some ((pyStr a.alarm_state).getD "U")) now),
     ["PUSH_FIRING"])
  else (none, ["ERROR"])

/-- Net effect of one per-alarm handler in Phase 3 of sync_service.py:
the updated row, how many notifications were pushed, whether the handler
raised (the loop catches it and counts an error), whether it logged the
silence-creation warning, and the audit operations written. -/
structure PhaseOutcome where
  record : SyncRecord
  pushes : Nat
  raised : Bool
  warned : Bool
  logs : List String
  deriving Repr, DecidableEq

/-- `SyncService._handle_alarm_resolved` for a status-changed row whose new
upstream state is `new_state`; `pushOk` is the backend's verdict on the
resolved push. -/
def handle_alarm_resolved (rec : SyncRecord) (new_state : String)
    (pushOk : Bool) (now : Int) : PhaseOutcome :=
  if pushOk then
    { record := update_sync_status_success rec "RESOLVED" (some new_state) none none now,
      pushes := 1, raised := false, warned := false, logs := ["PUSH_RESOLVED"] }
  else
    { record := update_sync_status_error rec "Failed to push resolved alert",
      pushes := 1, raised := true, warned := false, logs := [] }

/-- `SyncService._handle_alarm_silenced`: pushes resolved first (raising on
failure), then asks the backend for a suppression; `silence_result` is
`some id` when the creation succeeded.  When it fails after a successful
push, the row is set to RESOLVED with a null silence id, a warning is
logged, and nothing is raised. -/
def handle_alarm_silenced (rec : SyncRecord) (pushOk : Bool)
    (silence_result : Option String) (now : Int) : PhaseOutcome :=
  if pushOk then
    match silence_result with
    | some sid =>
      { record := update_sync_status_success rec "SILENCED" (some "M") none (some sid) now,
        pushes := 1, raised := false, warned := false,
        logs := ["PUSH_RESOLVED_FOR_SILENCE", "CREATE_SILENCE"] }
    | none =>
      { record := update_sync_status_success rec "RESOLVED" (some "M") none none now,
        pushes := 1, raised := false, warned := true,
        logs := ["PUSH_RESOLVED_FOR_SILENCE"] }
  else
    { record := update_sync_status_error rec "Failed to push resolved alert for silenced alarm",
      pushes := 1, raised := true, warned := false, logs := [] }

/-- One row of Phase 3 (`SyncService.sync_status_changes`): rows with
`push_count = 0` skip notification and are marked RESOLVED directly;
otherwise A/C rows go through the resolved handler and M rows through the
silence handler (or the resolved handler when the silence API is off). -/
def status_change_step (use_silence_api : Bool) (rec : SyncRecord)
    (new_state : String) (pushOk : Bool) (silence_result : Option String)
    (now : Int) : PhaseOutcome :=
  if rec.push_count = 0 then
    { record := update_sync_status_success rec "RESOLVED" (some new_state) none none now,
      pushes := 0, raised := false, warned := false, logs := [] }
  else if new_state = "A" ∨ new_state = "C" then
    handle_alarm_resolved rec new_state pushOk now
  else if new_state = "M" then
    if use_silence_api then handle_alarm_silenced rec pushOk silence_result now
    else handle_alarm_resolved rec new_state pushOk now
  else
    { record := rec, pushes := 0, raised := false, warned := false, logs := [] }

/-- Joint state of one alarm's sync row and the backend's suppression-rule
set.  `lastSilenceCreateFailed` records whether the most recent
suppression-creation attempt failed (for stating the spec's SILENCED
invariant).  `ruleKnownMissing` is a history variable set by exactly the two
code paths that leave a SILENCED row whose rule does not exist at the
backend: a silence cleanup whose backend delete succeeded but whose row
update was swallowed by the store gateway, and a suppression "created"
through the direct-incident backend's 404 path, which reports success
without acknowledging anything. -/
structure EngineState where
  row : SyncRecord
  backend : List String
  lastSilenceCreateFailed : Bool
  ruleKnownMissing : Bool

/-- The per-alarm transitions the reconciliation engine
(app/services/sync_service.py) can perform on a sync row and the backend,
with the fetch predicates of oracle_client.py as guards and the backend's
success / failure verdicts as nondeterminism.  Every row update goes through
`AlarmExtractor.update_sync_status`, which swallows database errors
(alarm_extractor.py lines 179-190) and whose return value the engine
ignores, so each backend-success transition has a `…_update_swallowed`
variant in which the backend effect happens but the row stays as it was.
A suppression-creation success either really creates a rule at the backend
(aggregator 200 / direct-incident 200/202) or is the direct-incident 404
path (opsgenie_client.py lines 395-401), which returns `success` with the
alias as id while acknowledging nothing.  Steps that change neither the row
nor the backend (heartbeat push failure, silence-cleanup delete failure,
swallowed row updates of row-only transitions) are omitted as identity
steps. -/
inductive Step : EngineState → EngineState → Prop where
  | refire_ok (s : EngineState) (z : String) (now : Int) :
      s.row.sync_status = "RESOLVED" →
      Step s { s with row := update_sync_status_success s.row "FIRING" (some z) none none now }
  | refire_fail (s : EngineState) (msg : String) :
      s.row.sync_status = "RESOLVED" →
      Step s { s with row := update_sync_status_error s.row msg }
  | status_push_count_zero (s : EngineState) (z : String) (now : Int) :
      s.row.sync_status = "FIRING" ∨ s.row.sync_status = "PENDING" →
      s.row.push_count = 0 →
      Step s { s with row := update_sync_status_success s.row "RESOLVED" (some z) none none now }
  | status_resolved_ok (s : EngineState) (z : String) (now : Int) :
      s.row.sync_status = "FIRING" ∨ s.row.sync_status = "PENDING" →
      Step s { s with
        row := update_sync_status_success s.row "RESOLVED" (some z) none none now,
        backend := match s.row.silence_id with
          | some sid => s.backend.erase sid
          | none => s.backend }
  | status_resolved_ok_update_swallowed (s : EngineState) :
      s.row.sync_status = "FIRING" ∨ s.row.sync_status = "PENDING" →
      Step s { s with
        backend := match s.row.silence_id with
          | some sid => s.backend.erase sid
          | none => s.backend }
  | status_push_fail (s : EngineState) (msg : String) :
      s.row.sync_status = "FIRING" ∨ s.row.sync_status = "PENDING" →
      Step s { s with row := update_sync_status_error s.row msg }
  | silence_create_ok (s : EngineState) (sid : String) (now : Int) :
      s.row.sync_status = "FIRING" ∨ s.row.sync_status = "PENDING" →
      Step s { row := update_sync_status_success s.row "SILENCED" (some "M") none (some sid) now,
               backend := sid :: s.backend,
               lastSilenceCreateFailed := false,
               ruleKnownMissing := false }
  | silence_create_ok_update_swallowed (s : EngineState) (sid : String) :
      s.row.sync_status = "FIRING" ∨ s.row.sync_status = "PENDING" →
      Step s { s with
        backend := sid :: s.backend,
        lastSilenceCreateFailed := false }
  | silence_create_acked_404 (s : EngineState) (sid : String) (now : Int) :
      s.row.sync_status = "FIRING" ∨ s.row.sync_status = "PENDING" →
      Step s { s with
        row := update_sync_status_success s.row "SILENCED" (some "M") none (some sid) now,
        lastSilenceCreateFailed := false,
        ruleKnownMissing := true }
  | silence_create_fail (s : EngineState) (now : Int) :
      s.row.sync_status = "FIRING" ∨ s.row.sync_status = "PENDING" →
      Step s { s with
        row := update_sync_status_success s.row "RESOLVED" (some "M") none none now,
        lastSilenceCreateFailed := true }
  | silence_create_fail_update_swallowed (s : EngineState) :
      s.row.sync_status = "FIRING" ∨ s.row.sync_status = "PENDING" →
      Step s { s with lastSilenceCreateFailed := true }
  | heartbeat_ok (s : EngineState) (now : Int) :
      s.row.sync_status = "FIRING" →
      Step s { s with row := update_sync_status_success s.row "FIRING" (some "U") none none now }
  | cleanup_ok (s : EngineState) (sid z : String) (now : Int) :
      s.row.sync_status = "SILENCED" →
      s.row.silence_id = some sid →
      Step s { row := update_sync_status_success s.row "RESOLVED" (some z) none none now,
               backend := s.backend.erase sid,
               lastSilenceCreateFailed := s.lastSilenceCreateFailed,
               ruleKnownMissing := false }
  | cleanup_delete_ok_update_swallowed (s : EngineState) (sid : String) :
      s.row.sync_status = "SILENCED" →
      s.row.silence_id = some sid →
      Step s { s with
        backend := s.backend.erase sid,
        ruleKnownMissing := true }

/-- States reachable from a Phase-1 insertion (the only way the engine
creates a sync row, always with `sync_status = FIRING`). -/
inductive Reachable : EngineState → Prop where
  | init (alarm_inst_id event_inst_id : Option Int) (z : Option String)
      (now : Int) (backend : List String) :
      Reachable { row := insert_sync_status alarm_inst_id event_inst_id "FIRING" z now,
                  backend := backend, lastSilenceCreateFailed := false,
                  ruleKnownMissing := false }
  | step {s s' : EngineState} : Reachable s → Step s s' → Reachable s'

/-! Example values used by the concrete witnesses / counterexamples below. -/

/-- A manually cleared alarm with a summary id, as in spec scenario S4. -/
def exAlarmC1 : ZMCAlarm :=
  { event_inst_id := 12345, alarm_code := 1001, alarm_inst_id := some 1000,
    alarm_state := some "M" }

/-- A new active alarm, as in spec scenario S1/S6. -/
def exAlarmC2 : ZMCAlarm :=
  { event_inst_id := 12345, alarm_code := 1001, alarm_inst_id := some 1000,
    alarm_state := some "U", alarm_level := some "1" }

/-- Backend attempt script of spec scenario S6: 503, 503, then 200. -/
def script503 : Nat → AttemptOutcome := fun n =>
  if n = 0 then .response 503
  else if n = 1 then .response 503
  else .response 200

/-- Backend attempt script raising twice, then answering 200. -/
def scriptTimeoutTwice : Nat → AttemptOutcome := fun n =>
  if n ≤ 1 then .failure "timeout" else .response 200

/-- An alarm whose summary id is present but zero (falsy in Python). -/
def exAlarmC3 : ZMCAlarm :=
  { event_inst_id := 1, alarm_code := 5, alarm_inst_id := some 0 }

/-- An alarm with an ordinary non-zero summary id. -/
def exAlarmC3b : ZMCAlarm :=
  { event_inst_id := 12345, alarm_code := 1001, alarm_inst_id := some 7 }

/-- A resolved alarm whose event time lies after the resolution time. -/
def exAlarmC4 : ZMCAlarm :=
  { event_inst_id := 2, alarm_code := 9, event_time := some 100,
    alarm_state := some "A", reset_date := some 50 }

/-! Properties of the label sanitizer, shared by the label theorems. -/

/-- The character map of the sanitizer never produces a newline, a carriage
return, or a double quote. -/
theorem sanitizeChar_ne (c : Char) :
    sanitizeChar c ≠ '\n' ∧ sanitizeChar c ≠ '\r' ∧ sanitizeChar c ≠ '"' := by
  unfold sanitizeChar
  split
  · exact ⟨by decide, by decide, by decide⟩
  · split
    · exact ⟨by decide, by decide, by decide⟩
    · rename_i h1 h2
      push_neg at h1
      exact ⟨h1.1, h1.2, h2⟩

/-- The sanitizer's output is non-empty, at most 256 characters, and free of
newlines and double quotes. -/
theorem sanitizeTruncate_props (l : List Char) :
    (sanitizeTruncate l).length ≤ 256 ∧
    (l ≠ [] → sanitizeTruncate l ≠ []) ∧
    ∀ c ∈ sanitizeTruncate l, c ∈ l ∨ c = '.' := by
  unfold sanitizeTruncate
  split
  · rename_i hlong
    have htake : (l.take 253).length = 253 := by
      rw [List.length_take]
      omega
    refine ⟨?_, fun _ h => ?_, fun c hc => ?_⟩
    · rw [List.length_append, htake]
      decide
    · have := congrArg List.length h
      rw [List.length_append, htake] at this
      simp at this
    · rcases List.mem_append.mp hc with hc | hc
      · exact Or.inl (List.take_subset _ _ hc)
      · right
        have h3 : ("...".data) = ['.', '.', '.'] := rfl
        rw [h3] at hc
        simpa using hc
  · rename_i hshort
    exact ⟨by omega, fun h _h => h _h, fun c hc => Or.inl hc⟩

/-- The sanitizer's output is non-empty, at most 256 characters, and free of
newlines and double quotes. -/
theorem sanitizeLabelValue_props (v : String) :
    0 < (sanitizeLabelValue v).length ∧ (sanitizeLabelValue v).length ≤ 256 ∧
    ∀ c ∈ (sanitizeLabelValue v).data, c ≠ '\n' ∧ c ≠ '"' := by
  obtain ⟨d⟩ := v
  unfold sanitizeLabelValue
  split
  · exact ⟨by decide, by decide, by decide⟩
  · rename_i hne
    have hd : d ≠ [] := by
      intro h
      exact hne (by rw [h])
    have hmap : d.map sanitizeChar ≠ [] := by
      simpa using hd
    obtain ⟨hle, hnil, hmem⟩ := sanitizeTruncate_props (d.map sanitizeChar)
    have hdata : (String.mk (sanitizeTruncate (d.map sanitizeChar))).data =
        sanitizeTruncate (d.map sanitizeChar) := rfl
    have hlen : (String.mk (sanitizeTruncate (d.map sanitizeChar))).length =
        (sanitizeTruncate (d.map sanitizeChar)).length := rfl
    refine ⟨?_, ?_, ?_⟩
    · rw [hlen]
      exact List.length_pos.mpr (hnil hmap)
    · rw [hlen]
      exact hle
    · intro c hc
      rw [hdata] at hc
      rcases hmem c hc with hc | hc
      · rcases List.mem_map.mp hc with ⟨b, _, hb⟩
        exact hb ▸ ⟨(sanitizeChar_ne b).1, (sanitizeChar_ne b).2.2⟩
      · simp [hc]

/-! C1 — suppression-rule matchers. -/

/-- C1 (counterexample): for the manually cleared alarm of scenario S4, the
suppression rule built by the mapper has no matcher named `alarm_id` at all,
so its matcher list is not `[alarm_id = <summary id>]`. -/
theorem c1_counterexample :
    exAlarmC1.alarm_inst_id = some 1000 ∧
    ¬ ∃ m ∈ (create_silence defaultSilenceConfig exAlarmC1 none none 0
              "2024-01-01 00:00:00").matchers, m.name = "alarm_id" := by
  constructor
  · rfl
  · decide

/-- C1 (amended): the suppression rule built by the mapper for any alarm has
exactly one matcher, named `event_id`, whose value is the string form of the
alarm's most-recent event id — not an `alarm_id` matcher carrying the
summary id. -/
theorem c1_silence_matcher_is_event_id (cfg : SilenceConfig) (a : ZMCAlarm)
    (duration_hours : Option Int) (comment : Option String)
    (now : Int) (nowStr : String) :
    (create_silence cfg a duration_hours comment now nowStr).matchers =
      [{ name := "event_id", value := toString a.event_inst_id,
         isRegex := false, isEqual := true }] := rfl

/-! C2 — retry policy on 5xx responses. -/

/-- C2 (counterexample): with the backend scripted to answer 503, 503, 200
(scenario S6), the client makes exactly one HTTP attempt, the push fails,
and no sync row is created — not three attempts with a successful push. -/
theorem c2_counterexample :
    (push_alerts 3 script503).attempts = 1 ∧
    (push_alerts 3 script503).success = false ∧
    (sync_new_one 3 script503 exAlarmC2 0).fst = none := by
  exact ⟨rfl, rfl, rfl⟩

/-- C2 (amended): an HTTP response — any status code, including 5xx — ends
the retry loop immediately, so a first-attempt 503 yields one attempt and a
failed push (the new-alarm phase then records an ERROR and inserts no sync
row); only attempts that raise (timeout / connection error) are retried, as
with two raised attempts followed by a 200 on the third. -/
theorem c2_http_responses_not_retried (retry_count : Nat)
    (script : Nat → AttemptOutcome) (st : Nat)
    (hrc : 0 < retry_count) (h : script 0 = .response st) :
    request_with_retry retry_count script = .ok (st, 1) ∧
    sync_new_one 3 script503 exAlarmC2 0 = (none, ["ERROR"]) ∧
    request_with_retry 3 scriptTimeoutTwice = .ok (200, 3) := by
  refine ⟨?_, rfl, rfl⟩
  obtain ⟨n, rfl⟩ := Nat.exists_eq_add_of_lt hrc
  simp [request_with_retry, requestAttempts, h]

/-- C2 witness: the amended statement instantiated at the S6 script. -/
theorem c2_http_responses_not_retried_witness :
    request_with_retry 3 script503 = .ok (503, 1) ∧
    sync_new_one 3 script503 exAlarmC2 0 = (none, ["ERROR"]) ∧
    request_with_retry 3 scriptTimeoutTwice = .ok (200, 3) :=
  c2_http_responses_not_retried 3 script503 503 (by decide) rfl

/-! C3 — notification labels. -/

/-- The mapper leaves the label dictionary of `_build_labels` unchanged:
`transform_to_prometheus` pops the three core labels and `create_firing` /
`create_resolved` re-insert them at the same keys. -/
theorem transform_labels_eq_build_labels (sev : SeverityMapping)
    (static : StaticLabels) (a : ZMCAlarm) (resolved : Bool)
    (resolved_at : Option Int) (now : Int) :
    (transform_to_prometheus sev static a resolved resolved_at now).labels =
      build_labels sev static a := by
  cases resolved <;> rfl

/-- C3 (counterexample): for an alarm whose summary id is present but zero,
the notification's `alarm_id` label is the string of the event id (`"1"`),
not the string of the summary id (`"0"`): the Python truthiness test
`if alarm.alarm_inst_id` treats a zero summary id like a missing one. -/
theorem c3_counterexample :
    exAlarmC3.alarm_inst_id = some 0 ∧
    List.lookup "alarm_id"
        (transform_to_prometheus defaultSeverityMapping defaultStaticLabels
          exAlarmC3 false none 0).labels = some "1" ∧
    ("1" : String) ≠ toString (0 : Int) := by
  refine ⟨rfl, ?_, by decide⟩
  decide

/-- C3 (amended): the notification's `alarm_id` label is the string form of
the summary id whenever the summary id is present and non-zero, and the
string form of the event id otherwise; the `alertname` label is always
present, non-empty, at most 256 characters, and contains no newline and no
double quote. -/
theorem c3_alarm_id_and_alertname (sev : SeverityMapping)
    (static : StaticLabels) (a : ZMCAlarm) (resolved : Bool)
    (resolved_at : Option Int) (now : Int) :
    (∀ n : Int, pyInt a.alarm_inst_id = some n →
      List.lookup "alarm_id"
          (transform_to_prometheus sev static a resolved resolved_at now).labels =
        some (toString n)) ∧
    (pyInt a.alarm_inst_id = none →
      List.lookup "alarm_id"
          (transform_to_prometheus sev static a resolved resolved_at now).labels =
        some (toString a.event_inst_id)) ∧
    (∃ v, List.lookup "alertname"
          (transform_to_prometheus sev static a resolved resolved_at now).labels =
        some v ∧
      0 < v.length ∧ v.length ≤ 256 ∧ ∀ c ∈ v.data, c ≠ '\n' ∧ c ≠ '"') := by
  rw [transform_labels_eq_build_labels]
  refine ⟨fun n h => ?_, fun h => ?_, ?_⟩
  · simp [build_labels, List.lookup, h]
  · simp [build_labels, List.lookup, h]
  · refine ⟨sanitizeLabelValue a.effective_alert_name, ?_, ?_⟩
    · simp [build_labels, List.lookup]
    · obtain ⟨h1, h2, h3⟩ := sanitizeLabelValue_props a.effective_alert_name
      exact ⟨h1, h2, h3⟩

/-- C3 witness: the amended statement at a concrete alarm with summary id 7,
whose `alarm_id` label is `"7"`. -/
theorem c3_alarm_id_and_alertname_witness :
    List.lookup "alarm_id"
        (transform_to_prometheus defaultSeverityMapping defaultStaticLabels
          exAlarmC3b false none 0).labels = some (toString (7 : Int)) :=
  (c3_alarm_id_and_alertname defaultSeverityMapping defaultStaticLabels
    exAlarmC3b false none 0).1 7 rfl

/-! C4 — resolved notifications have `starts_at < ends_at`. -/

/-- C4: a resolved notification's end time is `resolved_at` (falling back to
the alarm's resolution time, then `now`); its start time is strictly before
its end time; and whenever the raw start time (`event_time` falling back to
`create_date`, then `now`) is at or after the end time, the start time is
set to one second before the end time, the end time unchanged. -/
theorem c4_resolved_starts_before_ends (sev : SeverityMapping)
    (static : StaticLabels) (a : ZMCAlarm) (resolved_at : Option Int)
    (now : Int) :
    (transform_to_prometheus sev static a true resolved_at now).endsAt =
      some (resolved_at.getD ((a.get_resolved_time).getD now)) ∧
    (∃ s e, (transform_to_prometheus sev static a true resolved_at now).startsAt = some s ∧
      (transform_to_prometheus sev static a true resolved_at now).endsAt = some e ∧
      s < e) ∧
    (a.event_time.getD (a.create_date.getD now) ≥
        resolved_at.getD ((a.get_resolved_time).getD now) →
      (transform_to_prometheus sev static a true resolved_at now).startsAt =
        some (resolved_at.getD ((a.get_resolved_time).getD now) - 1)) := by
  refine ⟨rfl, ?_, ?_⟩
  · by_cases h : a.event_time.getD (a.create_date.getD now) ≥
        resolved_at.getD ((a.get_resolved_time).getD now)
    · refine ⟨resolved_at.getD ((a.get_resolved_time).getD now) - 1,
        resolved_at.getD ((a.get_resolved_time).getD now),
        ?_, rfl, by omega⟩
      simp [transform_to_prometheus, h]
    · refine ⟨a.event_time.getD (a.create_date.getD now),
        resolved_at.getD ((a.get_resolved_time).getD now),
        ?_, rfl, by omega⟩
      simp [transform_to_prometheus, h]
  · intro hc
    simp [transform_to_prometheus, hc]

/-- C4 witness: a concrete resolved conversion where the raw start time
(100) lies after the resolution time (50): the start time becomes 49 and
the end time stays 50. -/
theorem c4_resolved_starts_before_ends_witness :
    (transform_to_prometheus defaultSeverityMapping defaultStaticLabels
        exAlarmC4 true (some 50) 0).endsAt = some ((some (50 : Int)).getD
          ((exAlarmC4.get_resolved_time).getD 0)) ∧
    (transform_to_prometheus defaultSeverityMapping defaultStaticLabels
        exAlarmC4 true (some 50) 0).startsAt = some ((some (50 : Int)).getD
          ((exAlarmC4.get_resolved_time).getD 0) - 1) := by
  have h := c4_resolved_starts_before_ends defaultSeverityMapping
    defaultStaticLabels exAlarmC4 (some 50) 0
  exact ⟨h.1, h.2.2 (by decide)⟩

/-! C5 — the sync filter. -/

/-- C5: `should_sync_alarm` accepts exactly the alarms whose effective level
is in the configured level allow-set — which defaults to {1,2,3,4} — and
whose mapped severity is in the configured severity allow-set whenever that
set is non-empty (an empty severity allow-set admits everything). -/
theorem c5_should_sync_iff (sync : SyncServiceConfig) (sev : SeverityMapping)
    (a : ZMCAlarm) :
    (should_sync_alarm sync sev a = true ↔
      (a.effective_severity ∈ sync.get_allowed_zmc_levels ∧
        (sync.get_allowed_severities = [] ∨
          pyLower (sev.get_severity a.effective_severity) ∈
            sync.get_allowed_severities))) ∧
    defaultSyncConfig.get_allowed_zmc_levels = ["1", "2", "3", "4"] := by
  constructor
  · simp only [should_sync_alarm]
    split_ifs with h1 h2 h3 <;> simp_all [List.isEmpty_iff]
  · decide

/-- C5 witness: under the default configuration, the level-1 alarm of
scenario S1 passes the filter, via the characterisation. -/
theorem c5_should_sync_iff_witness :
    should_sync_alarm defaultSyncConfig defaultSeverityMapping exAlarmC2 = true :=
  (c5_should_sync_iff defaultSyncConfig defaultSeverityMapping exAlarmC2).1.mpr
    ⟨by decide, Or.inl (by decide)⟩

/-! C6 — never-notified rows are resolved without a push. -/

/-- C6: in Phase 3, a row whose sync record has `push_count = 0` produces no
notification push and is set directly to RESOLVED with the newly observed
upstream state, whatever that state is (A, C, M or anything else), without
raising. -/
theorem c6_push_count_zero_direct_resolve (use_silence_api : Bool)
    (r : SyncRecord) (new_state : String) (pushOk : Bool)
    (silence_result : Option String) (now : Int)
    (h : r.push_count = 0) :
    (status_change_step use_silence_api r new_state pushOk silence_result now).pushes = 0 ∧
    (status_change_step use_silence_api r new_state pushOk silence_result now).record.sync_status =
      "RESOLVED" ∧
    (status_change_step use_silence_api r new_state pushOk silence_result now).record.zmc_alarm_state =
      some new_state ∧
    (status_change_step use_silence_api r new_state pushOk silence_result now).raised = false := by
  simp [status_change_step, h, update_sync_status_success]

/-- A FIRING sync record that has never been pushed (`push_count = 0`). -/
def exRecordC6 : SyncRecord :=
  { alarm_inst_id := some 1000, event_inst_id := some 12345,
    sync_status := "FIRING", zmc_alarm_state := some "U",
    last_push_time := none, push_count := 0,
    am_fingerprint := none, silence_id := none,
    error_count := 0, last_error := none }

/-- C6 witness: the never-pushed record, observed with new upstream state M,
is resolved directly with no push. -/
theorem c6_push_count_zero_direct_resolve_witness :
    (status_change_step true exRecordC6 "M" true none 0).pushes = 0 ∧
    (status_change_step true exRecordC6 "M" true none 0).record.sync_status = "RESOLVED" ∧
    (status_change_step true exRecordC6 "M" true none 0).record.zmc_alarm_state = some "M" ∧
    (status_change_step true exRecordC6 "M" true none 0).raised = false :=
  c6_push_count_zero_direct_resolve true exRecordC6 "M" true none 0 rfl

/-! C7 — silence-creation failure after a successful resolved push. -/

/-- C7: in the manual-clear handler, when the resolved push succeeds and the
suppression creation fails, the record is set to RESOLVED with a null
`silence_id` and a clean error count, the warning is logged, no exception is
raised, and only the resolved-push audit entry is written. -/
theorem c7_silence_failure_stays_resolved (r : SyncRecord) (now : Int) :
    (handle_alarm_silenced r true none now).record.sync_status = "RESOLVED" ∧
    (handle_alarm_silenced r true none now).record.silence_id = none ∧
    (handle_alarm_silenced r true none now).record.error_count = 0 ∧
    (handle_alarm_silenced r true none now).warned = true ∧
    (handle_alarm_silenced r true none now).raised = false ∧
    (handle_alarm_silenced r true none now).logs = ["PUSH_RESOLVED_FOR_SILENCE"] := by
  simp [handle_alarm_silenced, update_sync_status_success]

/-! C8 — the SILENCED invariant. -/

/-- The engine state right after the Phase-1 insertion of a new alarm. -/
def exStateC8 : EngineState :=
  { row := insert_sync_status (some 1000) (some 12345) "FIRING" (some "U") 0,
    backend := [], lastSilenceCreateFailed := false, ruleKnownMissing := false }

/-- The engine state after a manual clear whose suppression creation really
created rule `sid-1` at the backend. -/
def exStateC8' : EngineState :=
  { row := update_sync_status_success exStateC8.row "SILENCED" (some "M")
      none (some "sid-1") 5,
    backend := ["sid-1"], lastSilenceCreateFailed := false,
    ruleKnownMissing := false }

/-- The engine state after a subsequent silence cleanup whose backend delete
succeeded but whose row update was swallowed by the store gateway: the rule
is gone, the row is still SILENCED, and no error was recorded. -/
def exStateC8dangling : EngineState :=
  { exStateC8' with
    backend := exStateC8'.backend.erase "sid-1",
    ruleKnownMissing := true }

/-- The engine state after a manual clear handled through the
direct-incident backend's 404 path: the row is SILENCED with the alias as
silence id, but nothing was created at the backend. -/
def exStateC8acked : EngineState :=
  { exStateC8 with
    row := update_sync_status_success exStateC8.row "SILENCED" (some "M")
      none (some "zmc-12345") 5,
    lastSilenceCreateFailed := false,
    ruleKnownMissing := true }

/-- C8 (counterexample): two reachable states violate the claim as stated.
After create-silence success followed by a cleanup whose backend delete
succeeded and whose row update was swallowed (sync_service.py lines 477-486
with alarm_extractor.py lines 179-190), the row is SILENCED, no rule with
its silence id exists at the backend, the last creation attempt succeeded,
and `error_count = 0`.  The same holds after a manual clear whose
suppression was "created" via the direct-incident 404 path
(opsgenie_client.py lines 395-401), which reports success while
acknowledging nothing. -/
theorem c8_counterexample :
    (Reachable exStateC8dangling ∧
      exStateC8dangling.row.sync_status = "SILENCED" ∧
      ¬ ((∃ sid, exStateC8dangling.row.silence_id = some sid ∧
            sid ∈ exStateC8dangling.backend) ∨
         (exStateC8dangling.lastSilenceCreateFailed = true ∧
            0 < exStateC8dangling.row.error_count))) ∧
    (Reachable exStateC8acked ∧
      exStateC8acked.row.sync_status = "SILENCED" ∧
      ¬ ((∃ sid, exStateC8acked.row.silence_id = some sid ∧
            sid ∈ exStateC8acked.backend) ∨
         (exStateC8acked.lastSilenceCreateFailed = true ∧
            0 < exStateC8acked.row.error_count))) := by
  refine ⟨⟨?_, rfl, ?_⟩, ⟨?_, rfl, ?_⟩⟩
  · exact Reachable.step
      (Reachable.step (Reachable.init (some 1000) (some 12345) (some "U") 0 [])
        (Step.silence_create_ok exStateC8 "sid-1" 5 (Or.inl rfl)))
      (Step.cleanup_delete_ok_update_swallowed exStateC8' "sid-1" rfl rfl)
  · rintro (⟨sid, hsid, hmem⟩ | ⟨hflag, _⟩)
    · obtain rfl := Option.some.inj hsid
      exact absurd hmem (by decide)
    · exact absurd hflag (by decide)
  · exact Reachable.step (Reachable.init (some 1000) (some 12345) (some "U") 0 [])
      (Step.silence_create_acked_404 exStateC8 "zmc-12345" 5 (Or.inl rfl))
  · rintro (⟨sid, hsid, hmem⟩ | ⟨hflag, _⟩)
    · obtain rfl := Option.some.inj hsid
      exact absurd hmem (by decide)
    · exact absurd hflag (by decide)

/-- C8 (amended): in every reachable engine state, a sync record with
`sync_state = SILENCED` carries a non-null `silence_id`, and a suppression
rule with that id exists at the backend unless the state is marked
rule-known-missing — which happens exactly on the two code paths the
counterexample exercises: a silence cleanup whose backend delete succeeded
but whose row update the store gateway swallowed, and a suppression
"created" through the direct-incident backend's 404 path.  The error-count
disjunct of the original claim never arises: a failed creation leaves the
row RESOLVED, never SILENCED. -/
theorem c8_silenced_invariant_amended (s : EngineState) (h : Reachable s)
    (hs : s.row.sync_status = "SILENCED") :
    ∃ sid, s.row.silence_id = some sid ∧
      (sid ∈ s.backend ∨ s.ruleKnownMissing = true) := by
  induction h with
  | init a e z now backend =>
    simp [insert_sync_status] at hs
  | step hr hstep ih =>
    rename_i s s'
    cases hstep with
    | refire_ok z now hg =>
      simp [update_sync_status_success] at hs
    | refire_fail msg hg =>
      simp only [update_sync_status_error] at hs
      rw [hg] at hs
      simp at hs
    | status_push_count_zero z now hg hp =>
      simp [update_sync_status_success] at hs
    | status_resolved_ok z now hg =>
      simp [update_sync_status_success] at hs
    | status_resolved_ok_update_swallowed hg =>
      rcases hg with hg | hg <;> rw [hg] at hs <;> simp at hs
    | status_push_fail msg hg =>
      simp only [update_sync_status_error] at hs
      rcases hg with hg | hg <;> rw [hg] at hs <;> simp at hs
    | silence_create_ok sid now hg =>
      exact ⟨sid, rfl, Or.inl (List.mem_cons_self _ _)⟩
    | silence_create_ok_update_swallowed sid hg =>
      rcases hg with hg | hg <;> rw [hg] at hs <;> simp at hs
    | silence_create_acked_404 sid now hg =>
      exact ⟨sid, rfl, Or.inr rfl⟩
    | silence_create_fail now hg =>
      simp [update_sync_status_success] at hs
    | silence_create_fail_update_swallowed hg =>
      rcases hg with hg | hg <;> rw [hg] at hs <;> simp at hs
    | heartbeat_ok now hg =>
      simp [update_sync_status_success] at hs
    | cleanup_ok sid z now hg hsid =>
      simp [update_sync_status_success] at hs
    | cleanup_delete_ok_update_swallowed sid hg hsid =>
      exact ⟨sid, hsid, Or.inr rfl⟩

/-- C8 witness: the amended invariant evaluated on the concrete reachable
SILENCED state produced by insert followed by a successful manual-clear
handling, where the rule really is at the backend. -/
theorem c8_silenced_invariant_amended_witness :
    ∃ sid, exStateC8'.row.silence_id = some sid ∧
      (sid ∈ exStateC8'.backend ∨ exStateC8'.ruleKnownMissing = true) :=
  c8_silenced_invariant_amended exStateC8'
    (Reachable.step (Reachable.init (some 1000) (some 12345) (some "U") 0 [])
      (Step.silence_create_ok exStateC8 "sid-1" 5 (Or.inl rfl)))
    rfl

/-! C9 — push_count bookkeeping. -/

/-- C9: `push_count` is 1 on insertion, goes up by exactly 1 on every
successful update, is untouched by error updates, and therefore never
decreases across any sequence of write operations. -/
theorem c9_push_count_monotone :
    (∀ (ai ei : Option Int) (st : String) (z : Option String) (now : Int),
      (insert_sync_status ai ei st z now).push_count = 1) ∧
    (∀ (r : SyncRecord) (st : String) (z fp sid : Option String) (now : Int),
      (update_sync_status_success r st z fp sid now).push_count = r.push_count + 1) ∧
    (∀ (r : SyncRecord) (msg : String),
      (update_sync_status_error r msg).push_count = r.push_count) ∧
    (∀ (r : SyncRecord) (ops : List SyncOp),
      r.push_count ≤ (applySyncOps r ops).push_count) := by
  refine ⟨fun _ _ _ _ _ => rfl, fun _ _ _ _ _ _ => rfl, fun _ _ => rfl, ?_⟩
  intro r ops
  induction ops generalizing r with
  | nil => exact Nat.le_refl _
  | cons op rest ih =>
    have hstep : r.push_count ≤ (SyncOp.apply r op).push_count := by
      cases op with
      | success st z fp sid now =>
        simp [SyncOp.apply, update_sync_status_success]
      | error msg =>
        simp [SyncOp.apply, update_sync_status_error]
    exact Nat.le_trans hstep (ih (SyncOp.apply r op))

/-! C10 — successful updates overwrite fingerprint and silence id. -/

/-- C10: every successful sync-state update overwrites `AM_FINGERPRINT` and
`SILENCE_ID` with the values passed in — whatever the row held before — and
the call shapes that omit them (refire transitions, heartbeat refreshes,
`push_count = 0` resolutions) therefore null both fields. -/
theorem c10_success_update_overwrites_fingerprint_silence :
    (∀ (r : SyncRecord) (st : String) (z fp sid : Option String) (now : Int),
      (update_sync_status_success r st z fp sid now).am_fingerprint = fp ∧
      (update_sync_status_success r st z fp sid now).silence_id = sid) ∧
    (∀ (r : SyncRecord) (new_state : String) (now : Int),
      (refire_update r new_state now).am_fingerprint = none ∧
      (refire_update r new_state now).silence_id = none) ∧
    (∀ (r : SyncRecord) (now : Int),
      (heartbeat_update r now).am_fingerprint = none ∧
      (heartbeat_update r now).silence_id = none) ∧
    (∀ (r : SyncRecord) (new_state : String) (now : Int),
      (push_count_zero_resolve r new_state now).am_fingerprint = none ∧
      (push_count_zero_resolve r new_state now).silence_id = none) :=
  ⟨fun _ _ _ _ _ _ => ⟨rfl, rfl⟩, fun _ _ _ => ⟨rfl, rfl⟩,
   fun _ _ => ⟨rfl, rfl⟩, fun _ _ _ => ⟨rfl, rfl⟩⟩

end ZMC
